import Mathlib

/-!
Verification of the NeuralDB C binding layer
(`thirdai_platform/ndb/binding.cc` / `binding.h`).

The binding marshals between a flat C ABI and an opaque retrieval engine
(`OnDiskNeuralDB`, external).  We shallow-embed the binding's data
structures and functions: C strings become `String`, C++ vectors become
`List`, `std::optional` becomes `Option`, the `std::map` metadata becomes
an association list with overwriting insertion, machine integers become
`Nat`/`Int` (the binding only stores and compares them, never does
arithmetic that could overflow), and C `float` payloads become `ℚ` (the
binding only stores and forwards them, never computes with them).
`vector::at` throws `std::out_of_range` (a hard fault, modelled as an
`Except` error); unchecked `vector::operator[]` out of range is undefined
behavior (modelled as an explicit `ub` outcome).  The engine itself is out
of scope: binding functions that call it take the engine call's outcome
(`Except`) as an explicit argument.
-/

/-- Faults signalled by accessors at the binding boundary:
`indexOutOfRange` models the `std::out_of_range` thrown by `vector::at`,
`typeMismatch` models the engine's fault on a wrongly-typed metadata read. -/
inductive Fault where
  | indexOutOfRange
  | typeMismatch
deriving DecidableEq, Repr

/-- Outcome of a C++ operation that can hit undefined behavior
(an unchecked `vector::operator[]` with an out-of-range index). -/
inductive CppOutcome (α : Type) where
  | ok (a : α)
  | ub
deriving DecidableEq, Repr

/-- The tagged-union metadata value (`thirdai::search::ndb::MetadataValue`):
one variant per supported kind.  The `float` payload is carried as `ℚ`
since the binding never computes with it. -/
inductive MetadataValue where
  | bool (b : Bool)
  | int (i : Int)
  | float (f : ℚ)
  | str (s : String)
deriving DecidableEq, Repr

/-- Modelled from the spec: `MetadataValue::type()` lives in the engine
header `include/OnDiskNeuralDB.h`, not under src.  Per the spec the value
exposes a type tag, one per kind; the concrete numbering is opaque to the
binding, which only casts it to `int` and forwards it. -/
def MetadataValue.ctype : MetadataValue → Int
  | .bool _ => 0
  | .int _ => 1
  | .float _ => 2
  | .str _ => 3

/-- Modelled from the spec: `MetadataValue::asBool` is engine code not
under src; per spec section 4.1 a read whose accessor does not match the
stored tag is a TypeMismatch fault. -/
def MetadataValue.asBool : MetadataValue → Except Fault Bool
  | .bool b => .ok b
  | _ => .error .typeMismatch

/-- Modelled from the spec: `MetadataValue::asInt`, same convention. -/
def MetadataValue.asInt : MetadataValue → Except Fault Int
  | .int i => .ok i
  | _ => .error .typeMismatch

/-- Modelled from the spec: `MetadataValue::asFloat`, same convention. -/
def MetadataValue.asFloat : MetadataValue → Except Fault ℚ
  | .float f => .ok f
  | _ => .error .typeMismatch

/-- Modelled from the spec: `MetadataValue::asStr`, same convention. -/
def MetadataValue.asStr : MetadataValue → Except Fault String
  | .str s => .ok s
  | _ => .error .typeMismatch

/-- The per-chunk key-to-value map (`thirdai::search::ndb::MetadataMap`),
modelled as an association list with unique keys; the spec says key order
is not semantically significant. -/
abbrev MetadataMap : Type := List (String × MetadataValue)

/-- The empty metadata map (`MetadataMap()` default construction). -/
def MetadataMap.empty : MetadataMap := ([] : List (String × MetadataValue))

/-- Entries of the map, in storage order. -/
def MetadataMap.entries (m : MetadataMap) : List (String × MetadataValue) := m

/-- Number of entries in the map. -/
def MetadataMap.size (m : MetadataMap) : Nat := m.entries.length

/-- `map[key] = value`: insert-or-overwrite, as `std::map::operator[]`
followed by assignment behaves. -/
def MetadataMap.insert (m : MetadataMap) (k : String) (v : MetadataValue) :
    MetadataMap :=
  match m with
  | [] => [(k, v)]
  | (k₀, v₀) :: rest =>
    if k₀ = k then (k, v) :: rest
    else (k₀, v₀) :: MetadataMap.insert rest k v

/-- `vector::at(i)`: bounds-checked access that throws `std::out_of_range`
(modelled as the `indexOutOfRange` fault) when `i` is out of bounds. -/
def vecAt {α : Type} (xs : List α) (i : Nat) : Except Fault α :=
  if h : i < xs.length then .ok (xs.get ⟨i, h⟩) else .error .indexOutOfRange

/-- The staging document (`struct Document_t` in binding.cc): parallel
sequences of chunk texts and per-chunk metadata maps, a display name, a
document id, and an optional version. -/
structure Document_t where
  chunks : List String
  metadata : List MetadataMap
  document : String
  doc_id : String
  doc_version : Option Nat
deriving DecidableEq, Repr

/-- `Document_new(document, doc_id)`: fresh document with empty chunk and
metadata sequences and no version set. -/
def Document_new (document : String) (doc_id : String) : Document_t :=
  { chunks := [], metadata := [], document := document, doc_id := doc_id,
    doc_version := none }

/-- `Document_add_chunk(doc, chunk)`: appends `chunk` to `chunks` and a
fresh empty map to `metadata` (`emplace_back` on both vectors). -/
def Document_add_chunk (doc : Document_t) (chunk : String) : Document_t :=
  { doc with chunks := doc.chunks ++ [chunk],
             metadata := doc.metadata ++ [MetadataMap.empty] }

/-- `Document_set_version(doc, version)`: stores the version. -/
def Document_set_version (doc : Document_t) (version : Nat) : Document_t :=
  { doc with doc_version := some version }

/-- Common body of the four `Document_add_metadata_*` functions:
`doc->metadata[i][key] = value` uses the unchecked `vector::operator[]`,
so an out-of-range `i` is undefined behavior, not a checked fault. -/
def Document_add_metadata (doc : Document_t) (i : Nat) (key : String)
    (value : MetadataValue) : CppOutcome Document_t :=
  if h : i < doc.metadata.length then
    .ok { doc with
          metadata := doc.metadata.set i
            (MetadataMap.insert (doc.metadata.get ⟨i, h⟩) key value) }
  else .ub

/-- `Document_add_metadata_bool(doc, i, key, value)`. -/
def Document_add_metadata_bool (doc : Document_t) (i : Nat) (key : String)
    (value : Bool) : CppOutcome Document_t :=
  Document_add_metadata doc i key (.bool value)

/-- `Document_add_metadata_int(doc, i, key, value)`. -/
def Document_add_metadata_int (doc : Document_t) (i : Nat) (key : String)
    (value : Int) : CppOutcome Document_t :=
  Document_add_metadata doc i key (.int value)

/-- `Document_add_metadata_float(doc, i, key, value)`. -/
def Document_add_metadata_float (doc : Document_t) (i : Nat) (key : String)
    (value : ℚ) : CppOutcome Document_t :=
  Document_add_metadata doc i key (.float value)

/-- `Document_add_metadata_str(doc, i, key, value)`. -/
def Document_add_metadata_str (doc : Document_t) (i : Nat) (key : String)
    (value : String) : CppOutcome Document_t :=
  Document_add_metadata doc i key (.str value)

/-- One builder operation on a staging document, covering every mutating
entry point of the Document builder surface. -/
inductive BuilderOp where
  | addChunk (text : String)
  | setVersion (v : Nat)
  | addMetaBool (i : Nat) (key : String) (v : Bool)
  | addMetaInt (i : Nat) (key : String) (v : Int)
  | addMetaFloat (i : Nat) (key : String) (v : ℚ)
  | addMetaStr (i : Nat) (key : String) (v : String)
deriving DecidableEq, Repr

/-- Apply one builder operation, propagating the undefined-behavior
outcome of the metadata setters. -/
def applyOp (doc : Document_t) : BuilderOp → CppOutcome Document_t
  | .addChunk t => .ok (Document_add_chunk doc t)
  | .setVersion v => .ok (Document_set_version doc v)
  | .addMetaBool i k v => Document_add_metadata_bool doc i k v
  | .addMetaInt i k v => Document_add_metadata_int doc i k v
  | .addMetaFloat i k v => Document_add_metadata_float doc i k v
  | .addMetaStr i k v => Document_add_metadata_str doc i k v

/-- Run a sequence of builder operations left to right; undefined
behavior is absorbing. -/
def runOps (doc : Document_t) : List BuilderOp → CppOutcome Document_t
  | [] => .ok doc
  | op :: rest =>
    match applyOp doc op with
    | .ok doc₁ => runOps doc₁ rest
    | .ub => .ub

/-- A flattened metadata snapshot (`struct MetadataList_t`): a vector of
(key, value) pairs copied from one chunk's metadata map. -/
structure MetadataList_t where
  metadata : List (String × MetadataValue)
deriving DecidableEq, Repr

/-- `MetadataList_len(metadata)`. -/
def MetadataList_len (m : MetadataList_t) : Nat := m.metadata.length

/-- `MetadataList_key(metadata, i)`: the i-th key, via `vector::at`. -/
def MetadataList_key (m : MetadataList_t) (i : Nat) : Except Fault String :=
  (vecAt m.metadata i).map Prod.fst

/-- `MetadataList_type(metadata, i)`: the i-th value's type tag as an
`int`, via `vector::at`. -/
def MetadataList_type (m : MetadataList_t) (i : Nat) : Except Fault Int :=
  (vecAt m.metadata i).map (fun p => p.2.ctype)

/-- `MetadataList_bool(metadata, i)`: `vector::at` then `asBool`. -/
def MetadataList_bool (m : MetadataList_t) (i : Nat) : Except Fault Bool :=
  (vecAt m.metadata i).bind (fun p => p.2.asBool)

/-- `MetadataList_int(metadata, i)`: `vector::at` then `asInt`. -/
def MetadataList_int (m : MetadataList_t) (i : Nat) : Except Fault Int :=
  (vecAt m.metadata i).bind (fun p => p.2.asInt)

/-- `MetadataList_float(metadata, i)`: `vector::at` then `asFloat`. -/
def MetadataList_float (m : MetadataList_t) (i : Nat) : Except Fault ℚ :=
  (vecAt m.metadata i).bind (fun p => p.2.asFloat)

/-- `MetadataList_str(metadata, i)`: `vector::at` then `asStr`. -/
def MetadataList_str (m : MetadataList_t) (i : Nat) : Except Fault String :=
  (vecAt m.metadata i).bind (fun p => p.2.asStr)

/-- An engine-produced chunk (`thirdai::search::ndb::Chunk`): numeric id
(uint64), text, owning document name, document id, resolved version
(uint32), and its metadata map.  The binding only reads these fields. -/
structure Chunk where
  id : Nat
  text : String
  document : String
  doc_id : String
  doc_version : Nat
  metadata : MetadataMap
deriving DecidableEq, Repr

/-- A query-result collection (`struct QueryResults_t`): the engine's
ranked (chunk, score) pairs, in the engine's order. -/
structure QueryResults_t where
  results : List (Chunk × ℚ)
deriving DecidableEq, Repr

/-- `QueryResults_len(results)`. -/
def QueryResults_len (r : QueryResults_t) : Nat := r.results.length

/-- `QueryResults_id(results, i)`, via `vector::at`. -/
def QueryResults_id (r : QueryResults_t) (i : Nat) : Except Fault Nat :=
  (vecAt r.results i).map (fun p => p.1.id)

/-- `QueryResults_text(results, i)`, via `vector::at`. -/
def QueryResults_text (r : QueryResults_t) (i : Nat) : Except Fault String :=
  (vecAt r.results i).map (fun p => p.1.text)

/-- `QueryResults_document(results, i)`, via `vector::at`. -/
def QueryResults_document (r : QueryResults_t) (i : Nat) :
    Except Fault String :=
  (vecAt r.results i).map (fun p => p.1.document)

/-- `QueryResults_doc_id(results, i)`, via `vector::at`. -/
def QueryResults_doc_id (r : QueryResults_t) (i : Nat) :
    Except Fault String :=
  (vecAt r.results i).map (fun p => p.1.doc_id)

/-- `QueryResults_doc_version(results, i)`, via `vector::at`. -/
def QueryResults_doc_version (r : QueryResults_t) (i : Nat) :
    Except Fault Nat :=
  (vecAt r.results i).map (fun p => p.1.doc_version)

/-- `QueryResults_score(results, i)`, via `vector::at`. -/
def QueryResults_score (r : QueryResults_t) (i : Nat) : Except Fault ℚ :=
  (vecAt r.results i).map (fun p => p.2)

/-- `QueryResults_metadata(results, i)`: a newly allocated
`MetadataList_t` whose vector is copy-constructed from the i-th chunk's
metadata map (`out->metadata = begin..end of the map`). -/
def QueryResults_metadata (r : QueryResults_t) (i : Nat) :
    Except Fault MetadataList_t :=
  (vecAt r.results i).map
    (fun p => { metadata := MetadataMap.entries p.1.metadata })

/-- The error-buffer allocation performed by `copyError`: a heap buffer of
`new char[strlen(e.what())]` bytes into which `strcpy` copies the message.
`bytesAlloc` is the allocation size; `content` is the character sequence
deposited by `strcpy` (the message; `strcpy` also appends a terminating
byte after it).  The model string stands for the message's bytes, so
`String.length` plays the role of `strlen`. -/
structure ErrAlloc where
  bytesAlloc : Nat
  content : String
deriving DecidableEq, Repr

/-- `copyError(e, err_ptr)`: allocates `strlen(e.what())` bytes and
`strcpy`s the message into the buffer. -/
def copyError (msg : String) : ErrAlloc :=
  { bytesAlloc := msg.length, content := msg }

/-- Number of bytes `strcpy` writes when copying `msg`: every byte of the
message plus the terminating byte. -/
def strcpyBytesWritten (msg : String) : Nat := msg.length + 1

/-- The error out-slot (`const char **err_ptr`): `none` or whatever the
caller pre-initialized it to; a fallible operation overwrites it only on
failure, with the buffer produced by `copyError`. -/
abbrev ErrSlot : Type := Option String

/-- Writing the slot on failure: `*err_ptr = err_msg`. -/
def writeErr (msg : String) : ErrSlot := some (copyError msg).content

/-- The engine handle wrapper (`struct NeuralDB_t`): owns one engine
instance.  The engine type is opaque to the binding. -/
structure NeuralDB_t (E : Type) where
  ndb : E
deriving DecidableEq, Repr

/-- `NeuralDB_new(save_path, err_ptr)`: wraps `OnDiskNeuralDB::make`.
The engine is external, so its outcome (a fresh instance, or a thrown
exception's message) is an explicit argument.  On success the slot is not
touched and a new handle is returned; on a thrown exception `copyError`
fills the slot and `nullptr` (here `none`) is returned. -/
def NeuralDB_new {E : Type} (make : Except String E) (slot : ErrSlot) :
    Option (NeuralDB_t E) × ErrSlot :=
  match make with
  | .ok e => (some { ndb := e }, slot)
  | .error msg => (none, writeErr msg)

/-- Result of `NeuralDB_insert`: the document observed after the call,
whether the call released it, and the slot after the call. -/
structure InsertResult where
  docAfter : Document_t
  docFreed : Bool
  slotAfter : ErrSlot
deriving DecidableEq, Repr

/-- `NeuralDB_insert(ndb, doc, err_ptr)`: forwards the document's fields
(chunks, metadata, name, id, optional version) to the engine's `insert`.
The engine call's outcome is an explicit argument, a function of exactly
the fields the binding passes.  The binding never mutates or deletes the
document, and touches the slot only when the engine throws. -/
def NeuralDB_insert
    (engineInsert : List String → List MetadataMap → String → String →
      Option Nat → Except String Unit)
    (doc : Document_t) (slot : ErrSlot) : InsertResult :=
  match engineInsert doc.chunks doc.metadata doc.document doc.doc_id
      doc.doc_version with
  | .ok _ => { docAfter := doc, docFreed := false, slotAfter := slot }
  | .error msg =>
    { docAfter := doc, docFreed := false, slotAfter := writeErr msg }

/-- `NeuralDB_query(ndb, query, topk, err_ptr)`: calls the engine's
`query` (outcome an explicit argument) and copies the returned ranked
pairs into a newly allocated collection; on a thrown exception it fills
the slot and returns `nullptr` (here `none`). -/
def NeuralDB_query
    (engineQuery : String → Nat → Except String (List (Chunk × ℚ)))
    (query : String) (topk : Nat) (slot : ErrSlot) :
    Option QueryResults_t × ErrSlot :=
  match engineQuery query topk with
  | .ok rs => (some { results := rs }, slot)
  | .error msg => (none, writeErr msg)

/-- `NeuralDB_save(ndb, save_path, err_ptr)`: calls the engine's `save`
(outcome an explicit argument); touches the slot only when it throws. -/
def NeuralDB_save (engineSave : String → Except String Unit)
    (save_path : String) (slot : ErrSlot) : ErrSlot :=
  match engineSave save_path with
  | .ok _ => slot
  | .error msg => writeErr msg

/-! ## Helper lemmas -/

lemma vecAt_lt {α : Type} (xs : List α) (i : Nat) (h : i < xs.length) :
    vecAt xs i = .ok (xs.get ⟨i, h⟩) := dif_pos h

lemma vecAt_ge {α : Type} (xs : List α) (i : Nat) (h : xs.length ≤ i) :
    vecAt xs i = .error .indexOutOfRange := dif_neg (by omega)

lemma applyOp_align (doc doc₁ : Document_t) (op : BuilderOp)
    (h : applyOp doc op = .ok doc₁)
    (hal : doc.chunks.length = doc.metadata.length) :
    doc₁.chunks.length = doc₁.metadata.length := by
  cases op with
  | addChunk t =>
    simp only [applyOp, CppOutcome.ok.injEq] at h
    subst h
    simp [Document_add_chunk, hal]
  | setVersion v =>
    simp only [applyOp, CppOutcome.ok.injEq] at h
    subst h
    simpa [Document_set_version] using hal
  | addMetaBool i k v =>
    simp only [applyOp, Document_add_metadata_bool, Document_add_metadata] at h
    split at h
    · cases h; simpa using hal
    · cases h
  | addMetaInt i k v =>
    simp only [applyOp, Document_add_metadata_int, Document_add_metadata] at h
    split at h
    · cases h; simpa using hal
    · cases h
  | addMetaFloat i k v =>
    simp only [applyOp, Document_add_metadata_float, Document_add_metadata] at h
    split at h
    · cases h; simpa using hal
    · cases h
  | addMetaStr i k v =>
    simp only [applyOp, Document_add_metadata_str, Document_add_metadata] at h
    split at h
    · cases h; simpa using hal
    · cases h

lemma runOps_align (ops : List BuilderOp) (doc doc₁ : Document_t)
    (h : runOps doc ops = .ok doc₁)
    (hal : doc.chunks.length = doc.metadata.length) :
    doc₁.chunks.length = doc₁.metadata.length := by
  induction ops generalizing doc with
  | nil => simp only [runOps, CppOutcome.ok.injEq] at h; subst h; exact hal
  | cons op rest ih =>
    simp only [runOps] at h
    cases hop : applyOp doc op with
    | ok docMid =>
      rw [hop] at h
      exact ih docMid h (applyOp_align doc docMid op hop hal)
    | ub => rw [hop] at h; cases h

/-! ## Claim theorems -/

/-- C3: starting from `Document_new`, after any sequence of builder
operations that completes without undefined behavior (in particular, all
metadata indices in range), the invariant
`len(chunks) = len(metadata)` holds; `Document_new` creates both
sequences empty and `Document_add_chunk` appends one element to each, so
the invariant holds at every intermediate state as well (any prefix of
the sequence is itself such a sequence). -/
theorem document_builder_alignment_invariant (name doc_id : String)
    (ops : List BuilderOp) (doc : Document_t)
    (h : runOps (Document_new name doc_id) ops = .ok doc) :
    doc.chunks.length = doc.metadata.length :=
  runOps_align ops (Document_new name doc_id) doc h rfl

/-- Witness for C3 at a concrete operation sequence. -/
theorem document_builder_alignment_invariant_witness :
    runOps (Document_new "d" "id")
      [BuilderOp.addChunk "a", BuilderOp.setVersion 3,
       BuilderOp.addMetaInt 0 "k" 7] =
      CppOutcome.ok
        { chunks := ["a"], metadata := [[("k", MetadataValue.int 7)]],
          document := "d", doc_id := "id", doc_version := some 3 } ∧
    ({ chunks := ["a"], metadata := [[("k", MetadataValue.int 7)]],
       document := "d", doc_id := "id",
       doc_version := some 3 } : Document_t).chunks.length =
      ({ chunks := ["a"], metadata := [[("k", MetadataValue.int 7)]],
         document := "d", doc_id := "id",
         doc_version := some 3 } : Document_t).metadata.length :=
  ⟨by decide,
   document_builder_alignment_invariant "d" "id"
     [BuilderOp.addChunk "a", BuilderOp.setVersion 3,
      BuilderOp.addMetaInt 0 "k" 7] _ (by decide)⟩

/-- C8: `Document_set_version` stores exactly its argument, the stored
version after any nonempty sequence of calls is the last argument
(last write wins), and repeating a call changes nothing (idempotence). -/
theorem document_set_version_last_write_wins (doc : Document_t)
    (u v : Nat) (vs : List Nat) :
    (Document_set_version doc v).doc_version = some v ∧
    Document_set_version (Document_set_version doc u) v =
      Document_set_version doc v ∧
    Document_set_version (Document_set_version doc v) v =
      Document_set_version doc v ∧
    ((vs ++ [v]).foldl Document_set_version doc).doc_version = some v := by
  refine ⟨rfl, rfl, rfl, ?_⟩
  rw [List.foldl_append]
  rfl

/-- C4: the metadata setters do not bounds-check: they index the metadata
vector with the unchecked `vector::operator[]`, so an out-of-range
`chunk_index` is undefined behavior rather than the IndexOutOfRange fault
the specification requires.  Evaluated at the failing input — a fresh
document with zero chunks and index 0 — every one of the four setters
hits undefined behavior; in range they update the map normally. -/
theorem document_add_metadata_out_of_range_is_ub :
    Document_add_metadata_bool (Document_new "d" "id") 0 "k" true =
      CppOutcome.ub ∧
    Document_add_metadata_int (Document_new "d" "id") 0 "k" 7 =
      CppOutcome.ub ∧
    Document_add_metadata_float (Document_new "d" "id") 0 "k" 1 =
      CppOutcome.ub ∧
    Document_add_metadata_str (Document_new "d" "id") 0 "k" "v" =
      CppOutcome.ub ∧
    Document_add_metadata_bool
      (Document_add_chunk (Document_new "d" "id") "a") 0 "k" true =
      CppOutcome.ok
        { chunks := ["a"], metadata := [[("k", MetadataValue.bool true)]],
          document := "d", doc_id := "id", doc_version := none } :=
  ⟨rfl, rfl, rfl, rfl, rfl⟩

/-- C10: `Document_add_chunk` appends exactly the given text to `chunks`
and exactly one fresh empty map to `metadata`, leaves the document name,
doc id and optional version unchanged, and leaves every previously stored
chunk and metadata map in place. -/
theorem document_add_chunk_frame (doc : Document_t) (chunk : String)
    (j : Nat) (hj : j < doc.chunks.length) (hm : j < doc.metadata.length) :
    (Document_add_chunk doc chunk).chunks = doc.chunks ++ [chunk] ∧
    (Document_add_chunk doc chunk).metadata =
      doc.metadata ++ [MetadataMap.empty] ∧
    (Document_add_chunk doc chunk).document = doc.document ∧
    (Document_add_chunk doc chunk).doc_id = doc.doc_id ∧
    (Document_add_chunk doc chunk).doc_version = doc.doc_version ∧
    (Document_add_chunk doc chunk).chunks.get? j = doc.chunks.get? j ∧
    (Document_add_chunk doc chunk).metadata.get? j = doc.metadata.get? j := by
  refine ⟨rfl, rfl, rfl, rfl, rfl, ?_, ?_⟩
  · simp [Document_add_chunk, List.getElem?_append_left hj]
  · simp [Document_add_chunk, List.getElem?_append_left hm]

/-- Witness for C10 at a concrete document with one existing chunk. -/
theorem document_add_chunk_frame_witness :
    0 < (Document_add_chunk (Document_new "d" "id") "a").chunks.length ∧
    0 < (Document_add_chunk (Document_new "d" "id") "a").metadata.length ∧
    (Document_add_chunk (Document_add_chunk (Document_new "d" "id") "a")
        "b").chunks.get? 0 =
      (Document_add_chunk (Document_new "d" "id") "a").chunks.get? 0 :=
  ⟨by decide, by decide,
   (document_add_chunk_frame (Document_add_chunk (Document_new "d" "id") "a")
     "b" 0 (by decide) (by decide)).2.2.2.2.2.1⟩

/-- C2: the error buffer is too small by one byte.  `copyError` allocates
`strlen(e.what())` bytes, but `strcpy` writes the message plus the
terminating byte — one byte more than the allocation for every message,
so the terminating byte always lands out of bounds.  Evaluated at the
one-character message "e": 1 byte is allocated and 2 bytes are written.
(The content deposited is the exception's message, as the claim says; the
in-bounds part is what fails.) -/
theorem copy_error_buffer_overflow :
    (∀ msg : String,
      strcpyBytesWritten msg = (copyError msg).bytesAlloc + 1 ∧
      (copyError msg).content = msg) ∧
    (copyError "e").bytesAlloc = 1 ∧
    strcpyBytesWritten "e" = 2 ∧
    ¬ strcpyBytesWritten "e" ≤ (copyError "e").bytesAlloc :=
  ⟨fun _ => ⟨rfl, rfl⟩, by decide, by decide, by decide⟩

/-- C1: the error-channel contract across the four fallible operations.
When the underlying engine call succeeds, the error slot is returned
exactly as the caller passed it (untouched) and `NeuralDB_new` /
`NeuralDB_query` return their fresh handle / collection; when it throws,
the slot receives the `copyError` buffer's content and the operations
with a result return the null sentinel (`none`). -/
theorem error_channel_contract {E : Type} (make : Except String E)
    (engineInsert : List String → List MetadataMap → String → String →
      Option Nat → Except String Unit)
    (engineQuery : String → Nat → Except String (List (Chunk × ℚ)))
    (engineSave : String → Except String Unit)
    (doc : Document_t) (q : String) (topk : Nat) (path : String)
    (slot : ErrSlot) :
    (∀ e, make = .ok e →
      NeuralDB_new make slot = (some { ndb := e }, slot)) ∧
    (∀ msg, make = .error msg →
      NeuralDB_new make slot = (none, writeErr msg)) ∧
    (engineInsert doc.chunks doc.metadata doc.document doc.doc_id
        doc.doc_version = .ok () →
      (NeuralDB_insert engineInsert doc slot).slotAfter = slot) ∧
    (∀ msg, engineInsert doc.chunks doc.metadata doc.document doc.doc_id
        doc.doc_version = .error msg →
      (NeuralDB_insert engineInsert doc slot).slotAfter = writeErr msg) ∧
    (∀ rs, engineQuery q topk = .ok rs →
      NeuralDB_query engineQuery q topk slot =
        (some { results := rs }, slot)) ∧
    (∀ msg, engineQuery q topk = .error msg →
      NeuralDB_query engineQuery q topk slot = (none, writeErr msg)) ∧
    (engineSave path = .ok () →
      NeuralDB_save engineSave path slot = slot) ∧
    (∀ msg, engineSave path = .error msg →
      NeuralDB_save engineSave path slot = writeErr msg) := by
  refine ⟨?_, ?_, ?_, ?_, ?_, ?_, ?_, ?_⟩
  · intro e h; simp [NeuralDB_new, h]
  · intro msg h; simp [NeuralDB_new, h]
  · intro h; simp [NeuralDB_insert, h]
  · intro msg h; simp [NeuralDB_insert, h]
  · intro rs h; simp [NeuralDB_query, h]
  · intro msg h; simp [NeuralDB_query, h]
  · intro h; simp [NeuralDB_save, h]
  · intro msg h; simp [NeuralDB_save, h]

/-- Witness for C1: a succeeding construction leaves the slot alone and a
throwing query nulls the collection and fills the slot. -/
theorem error_channel_contract_witness :
    NeuralDB_new (Except.ok ()) (some "sentinel") =
      (some { ndb := () }, some "sentinel") ∧
    NeuralDB_query (fun _ _ => Except.error "boom") "q" 5 (some "sentinel") =
      (none, writeErr "boom") :=
  ⟨(error_channel_contract (Except.ok ())
      (fun _ _ _ _ _ => Except.ok ()) (fun _ _ => Except.error "boom")
      (fun _ => Except.ok ()) (Document_new "d" "id") "q" 5 "p"
      (some "sentinel")).1 () rfl,
   (error_channel_contract (Except.ok ())
      (fun _ _ _ _ _ => Except.ok ()) (fun _ _ => Except.error "boom")
      (fun _ => Except.ok ()) (Document_new "d" "id") "q" 5 "p"
      (some "sentinel")).2.2.2.2.2.1 "boom" rfl⟩

/-- C7: `NeuralDB_insert` never releases the staging document and never
mutates it: whatever the engine call's outcome, the document observed
after the call is the one passed in, with every field (chunks, metadata,
name, doc id, optional version) unchanged, and no free was performed —
release remains the caller's job via `Document_free`. -/
theorem insert_preserves_document
    (engineInsert : List String → List MetadataMap → String → String →
      Option Nat → Except String Unit)
    (doc : Document_t) (slot : ErrSlot) :
    (NeuralDB_insert engineInsert doc slot).docAfter = doc ∧
    (NeuralDB_insert engineInsert doc slot).docFreed = false ∧
    (NeuralDB_insert engineInsert doc slot).docAfter.chunks = doc.chunks ∧
    (NeuralDB_insert engineInsert doc slot).docAfter.metadata =
      doc.metadata ∧
    (NeuralDB_insert engineInsert doc slot).docAfter.document =
      doc.document ∧
    (NeuralDB_insert engineInsert doc slot).docAfter.doc_id = doc.doc_id ∧
    (NeuralDB_insert engineInsert doc slot).docAfter.doc_version =
      doc.doc_version := by
  cases h : engineInsert doc.chunks doc.metadata doc.document doc.doc_id
      doc.doc_version <;>
    simp [NeuralDB_insert, h]

/-- C5: every index-taking accessor on a query-result collection or a
metadata snapshot goes through `vector::at`: with `i` in `[0, len)` it
returns the i-th element's field (the typed metadata readers returning
the payload when the stored tag matches), and with `i ≥ len` it signals
the IndexOutOfRange fault instead of touching memory out of bounds. -/
theorem accessor_bounds_contract (r : QueryResults_t) (m : MetadataList_t)
    (i j : Nat) :
    (∀ h : i < QueryResults_len r,
      QueryResults_id r i = .ok (r.results.get ⟨i, h⟩).1.id ∧
      QueryResults_text r i = .ok (r.results.get ⟨i, h⟩).1.text ∧
      QueryResults_document r i = .ok (r.results.get ⟨i, h⟩).1.document ∧
      QueryResults_doc_id r i = .ok (r.results.get ⟨i, h⟩).1.doc_id ∧
      QueryResults_doc_version r i =
        .ok (r.results.get ⟨i, h⟩).1.doc_version ∧
      QueryResults_score r i = .ok (r.results.get ⟨i, h⟩).2 ∧
      QueryResults_metadata r i =
        .ok { metadata :=
                MetadataMap.entries (r.results.get ⟨i, h⟩).1.metadata }) ∧
    (QueryResults_len r ≤ i →
      QueryResults_id r i = .error .indexOutOfRange ∧
      QueryResults_text r i = .error .indexOutOfRange ∧
      QueryResults_document r i = .error .indexOutOfRange ∧
      QueryResults_doc_id r i = .error .indexOutOfRange ∧
      QueryResults_doc_version r i = .error .indexOutOfRange ∧
      QueryResults_score r i = .error .indexOutOfRange ∧
      QueryResults_metadata r i = .error .indexOutOfRange) ∧
    (∀ h : j < MetadataList_len m,
      MetadataList_key m j = .ok (m.metadata.get ⟨j, h⟩).1 ∧
      MetadataList_type m j = .ok (m.metadata.get ⟨j, h⟩).2.ctype ∧
      (∀ b, (m.metadata.get ⟨j, h⟩).2 = .bool b →
        MetadataList_bool m j = .ok b) ∧
      (∀ n, (m.metadata.get ⟨j, h⟩).2 = .int n →
        MetadataList_int m j = .ok n) ∧
      (∀ f, (m.metadata.get ⟨j, h⟩).2 = .float f →
        MetadataList_float m j = .ok f) ∧
      (∀ s, (m.metadata.get ⟨j, h⟩).2 = .str s →
        MetadataList_str m j = .ok s)) ∧
    (MetadataList_len m ≤ j →
      MetadataList_key m j = .error .indexOutOfRange ∧
      MetadataList_type m j = .error .indexOutOfRange ∧
      MetadataList_bool m j = .error .indexOutOfRange ∧
      MetadataList_int m j = .error .indexOutOfRange ∧
      MetadataList_float m j = .error .indexOutOfRange ∧
      MetadataList_str m j = .error .indexOutOfRange) := by
  refine ⟨?_, ?_, ?_, ?_⟩
  · intro h
    simp [QueryResults_id, QueryResults_text, QueryResults_document,
      QueryResults_doc_id, QueryResults_doc_version, QueryResults_score,
      QueryResults_metadata, vecAt_lt r.results i h, Except.map]
  · intro h
    simp [QueryResults_id, QueryResults_text, QueryResults_document,
      QueryResults_doc_id, QueryResults_doc_version, QueryResults_score,
      QueryResults_metadata, vecAt_ge r.results i h, Except.map]
  · intro h
    refine ⟨?_, ?_, ?_, ?_, ?_, ?_⟩
    · simp [MetadataList_key, vecAt_lt m.metadata j h, Except.map]
    · simp [MetadataList_type, vecAt_lt m.metadata j h, Except.map]
    · intro b hb
      simp only [List.get_eq_getElem] at hb
      simp [MetadataList_bool, vecAt_lt m.metadata j h, Except.bind, hb,
        MetadataValue.asBool]
    · intro n hn
      simp only [List.get_eq_getElem] at hn
      simp [MetadataList_int, vecAt_lt m.metadata j h, Except.bind, hn,
        MetadataValue.asInt]
    · intro f hf
      simp only [List.get_eq_getElem] at hf
      simp [MetadataList_float, vecAt_lt m.metadata j h, Except.bind, hf,
        MetadataValue.asFloat]
    · intro s hs
      simp only [List.get_eq_getElem] at hs
      simp [MetadataList_str, vecAt_lt m.metadata j h, Except.bind, hs,
        MetadataValue.asStr]
  · intro h
    simp [MetadataList_key, MetadataList_type, MetadataList_bool,
      MetadataList_int, MetadataList_float, MetadataList_str,
      vecAt_ge m.metadata j h, Except.map, Except.bind]

/-- Witness for C5: a one-element collection and snapshot, read in range
at index 0 and out of range at index 1. -/
theorem accessor_bounds_contract_witness :
    0 < QueryResults_len
      { results := [({ id := 1, text := "t", document := "d",
                       doc_id := "x", doc_version := 2,
                       metadata := [("k", MetadataValue.bool true)] },
                     (3 : ℚ))] } ∧
    QueryResults_score
      { results := [({ id := 1, text := "t", document := "d",
                       doc_id := "x", doc_version := 2,
                       metadata := [("k", MetadataValue.bool true)] },
                     (3 : ℚ))] } 0 = .ok 3 ∧
    MetadataList_bool { metadata := [("k", MetadataValue.bool true)] } 0 =
      .ok true ∧
    MetadataList_key { metadata := [("k", MetadataValue.bool true)] } 1 =
      .error .indexOutOfRange :=
  ⟨Nat.zero_lt_one,
   ((accessor_bounds_contract
      { results := [({ id := 1, text := "t", document := "d",
                       doc_id := "x", doc_version := 2,
                       metadata := [("k", MetadataValue.bool true)] },
                     (3 : ℚ))] }
      { metadata := [("k", MetadataValue.bool true)] } 0 1).1
      Nat.zero_lt_one).2.2.2.2.2.1,
   (((accessor_bounds_contract
      { results := [({ id := 1, text := "t", document := "d",
                       doc_id := "x", doc_version := 2,
                       metadata := [("k", MetadataValue.bool true)] },
                     (3 : ℚ))] }
      { metadata := [("k", MetadataValue.bool true)] } 0 0).2.2.1
      Nat.zero_lt_one).2.2.1) true rfl,
   ((accessor_bounds_contract
      { results := [({ id := 1, text := "t", document := "d",
                       doc_id := "x", doc_version := 2,
                       metadata := [("k", MetadataValue.bool true)] },
                     (3 : ℚ))] }
      { metadata := [("k", MetadataValue.bool true)] } 0 1).2.2.2
      Nat.le.refl).1⟩

/-- C6: a successful query copies the engine's ranked (chunk, score)
pairs into the returned collection verbatim, in the engine's order; so
whenever the engine's list is in non-increasing score order, adjacent
scores read back through `QueryResults_score` satisfy
`score(i) ≥ score(i+1)`. -/
theorem query_preserves_engine_order
    (engineQuery : String → Nat → Except String (List (Chunk × ℚ)))
    (q : String) (topk : Nat) (slot : ErrSlot) (rs : List (Chunk × ℚ))
    (hq : engineQuery q topk = .ok rs) :
    NeuralDB_query engineQuery q topk slot =
      (some { results := rs }, slot) ∧
    (List.Chain' (fun a b : Chunk × ℚ => b.2 ≤ a.2) rs →
      ∀ i : Nat, ∀ h : i + 1 < rs.length,
        QueryResults_score { results := rs } i =
          .ok (rs.get ⟨i, Nat.lt_of_succ_lt h⟩).2 ∧
        QueryResults_score { results := rs } (i + 1) =
          .ok (rs.get ⟨i + 1, h⟩).2 ∧
        (rs.get ⟨i + 1, h⟩).2 ≤ (rs.get ⟨i, Nat.lt_of_succ_lt h⟩).2) := by
  refine ⟨by simp [NeuralDB_query, hq], ?_⟩
  intro hchain i h
  refine ⟨?_, ?_, ?_⟩
  · simp [QueryResults_score, vecAt_lt rs i (Nat.lt_of_succ_lt h),
      Except.map]
  · simp [QueryResults_score, vecAt_lt rs (i + 1) h, Except.map]
  · exact List.chain'_iff_get.mp hchain i (by omega)

/-- Witness for C6: a two-result engine answer with scores 5 then 3. -/
theorem query_preserves_engine_order_witness :
    QueryResults_score
      { results := [({ id := 1, text := "a", document := "d",
                       doc_id := "x", doc_version := 0, metadata := [] },
                     (5 : ℚ)),
                    ({ id := 2, text := "b", document := "d",
                       doc_id := "x", doc_version := 0, metadata := [] },
                     (3 : ℚ))] } 0 = .ok 5 ∧
    QueryResults_score
      { results := [({ id := 1, text := "a", document := "d",
                       doc_id := "x", doc_version := 0, metadata := [] },
                     (5 : ℚ)),
                    ({ id := 2, text := "b", document := "d",
                       doc_id := "x", doc_version := 0, metadata := [] },
                     (3 : ℚ))] } 1 = .ok 3 ∧
    (3 : ℚ) ≤ 5 :=
  (query_preserves_engine_order
    (fun _ _ => Except.ok
      [({ id := 1, text := "a", document := "d", doc_id := "x",
          doc_version := 0, metadata := [] }, (5 : ℚ)),
       ({ id := 2, text := "b", document := "d", doc_id := "x",
          doc_version := 0, metadata := [] }, (3 : ℚ))])
    "q" 2 none _ rfl).2 (List.Chain.cons (by norm_num) List.Chain.nil) 0
    (by decide)

/-- C9: with `i` in range, `QueryResults_metadata` returns a fresh
snapshot whose vector is copy-constructed from the i-th chunk's metadata
map: its length is the number of entries in that map and its (key, value)
pairs are exactly the map's entries. -/
theorem metadata_snapshot_is_copy (r : QueryResults_t) (i : Nat)
    (h : i < QueryResults_len r) :
    QueryResults_metadata r i =
      .ok { metadata :=
              MetadataMap.entries (r.results.get ⟨i, h⟩).1.metadata } ∧
    MetadataList_len
        { metadata :=
            MetadataMap.entries (r.results.get ⟨i, h⟩).1.metadata } =
      MetadataMap.size (r.results.get ⟨i, h⟩).1.metadata ∧
    ({ metadata :=
         MetadataMap.entries (r.results.get ⟨i, h⟩).1.metadata } :
       MetadataList_t).metadata =
      MetadataMap.entries (r.results.get ⟨i, h⟩).1.metadata := by
  refine ⟨?_, rfl, rfl⟩
  simp [QueryResults_metadata, vecAt_lt r.results i h, Except.map]

/-- Witness for C9 at a one-result collection with one metadata entry. -/
theorem metadata_snapshot_is_copy_witness :
    0 < QueryResults_len
      { results := [({ id := 1, text := "t", document := "d",
                       doc_id := "x", doc_version := 2,
                       metadata := [("k", MetadataValue.int 7)] },
                     (3 : ℚ))] } ∧
    QueryResults_metadata
      { results := [({ id := 1, text := "t", document := "d",
                       doc_id := "x", doc_version := 2,
                       metadata := [("k", MetadataValue.int 7)] },
                     (3 : ℚ))] } 0 =
      .ok { metadata := [("k", MetadataValue.int 7)] } :=
  ⟨Nat.zero_lt_one,
   (metadata_snapshot_is_copy
     { results := [({ id := 1, text := "t", document := "d",
                      doc_id := "x", doc_version := 2,
                      metadata := [("k", MetadataValue.int 7)] },
                    (3 : ℚ))] } 0 Nat.zero_lt_one).1⟩
